import Mathlib

/-!
# Verification of the keplr-wallet foreground key-ring session store

A shallow embedding of `src/packages/stores/src/core/keyring.ts`
(`KeyRingStore` and `KeyRingSelectablesStore`).

Execution model.  Every store method is a mobx `flow` (a generator driven by
promises): the generator body runs synchronously between `yield` suspension
points; each `yield`ed cross-boundary call either resolves with a response or
rejects, and a rejection is thrown into the generator, aborting it — writes
performed before the failing suspension point persist, code after it never
runs.  We embed each method as a pure function from the pre-state, the
method's arguments, and the outcome of each boundary call it may issue
(an `Except AuthorityError _` per call, standing for the background
authority's resolve/reject behaviour), returning the post-state, the
propagated result, and a trace of observable events in execution order.
-/

/-- Error description carried by a rejected cross-boundary call. -/
abbrev AuthorityError : Type := String

/-- `KeyRingStatus` from `@keplr/background`: the lock status mirror. -/
inductive KeyRingStatus where
  | NOTLOADED
  | EMPTY
  | LOCKED
  | UNLOCKED
deriving DecidableEq

/-- `BIP44` derivation path data; only `coinType` is inspected by this store. -/
structure BIP44 where
  coinType : Nat
deriving DecidableEq

/-- `BIP44HDPath` passed through to create/add messages (payload only). -/
structure BIP44HDPath where
  account : Nat
  change : Nat
  addressIndex : Nat
deriving DecidableEq

/-- One entry of `MultiKeyStoreInfoWithSelected`: a key-store descriptor.
The foreground treats these opaquely; only equality matters here. -/
structure KeyStoreInfo where
  type : String
  meta : List (String × String)
  selected : Bool
deriving DecidableEq

/-- One selectable coin-type candidate: `{ path: BIP44; bech32Address: string }`. -/
structure Selectable where
  path : BIP44
  bech32Address : String
deriving DecidableEq

/-- Chain metadata consulted by the resolver (`chainGetter.getChain`). -/
structure ChainInfo where
  bip44 : BIP44
  alternativeBIP44s : Option (List BIP44)
deriving DecidableEq

/-- A pending interaction record returned by `interactionStore.getDatas`. -/
structure Interaction where
  id : String
deriving DecidableEq

/-- Observable events emitted while a command executes, in execution order:
boundary calls issued, writes to the store's observable fields, interaction
approvals, window event dispatches, and resolver-refresh fan-out triggers
(recording the `keyRingType` the triggered refresh observes at its start). -/
inductive Event where
  | sendMessage (msgType : String)
  | writeStatus (s : KeyRingStatus)
  | writeKeyRingType (t : String)
  | writeMultiKeyStoreInfo (info : List KeyStoreInfo)
  | approveInteraction (msgType : String) (id : String) (payload : List (String × String))
  | dispatchEvent (name : String)
  | refreshTriggered (chainId : String) (observedKeyRingType : String)
  | setCoinTypeCall (chainId : String) (coinType : Nat)
deriving DecidableEq

/-- Observable state of one `KeyRingSelectablesStore` (per-chain resolver):
`isInitializing`, `_isKeyStoreCoinTypeSet`, `_selectables`. -/
structure SelectablesState where
  isInitializing : Bool
  isKeyStoreCoinTypeSet : Bool
  selectables : List Selectable
deriving DecidableEq

/-- Observable state of the `KeyRingStore`: `status`, `keyRingType`,
`multiKeyStoreInfo`, and the per-chain resolver registry `selectablesMap`
(an insertion-ordered association list, mirroring the mobx `Map`). -/
structure KeyRingState where
  status : KeyRingStatus
  keyRingType : String
  multiKeyStoreInfo : List KeyStoreInfo
  selectablesMap : List (String × SelectablesState)
deriving DecidableEq

/-- Result of running one command: the post-state, the value or propagated
rejection, and the event trace. -/
structure Outcome (σ : Type) (α : Type) where
  state : σ
  result : Except AuthorityError α
  trace : List Event

namespace KeyRingSelectablesStore

/-- Field values a `KeyRingSelectablesStore` is constructed with, before the
constructor invokes `refresh()`. -/
def initial : SelectablesState :=
  { isInitializing := false, isKeyStoreCoinTypeSet := false, selectables := [] }

/-- The synchronous segment of `refresh()` up to its first suspension point:
if the active key-ring kind is not `"mnemonic"` the whole body runs
synchronously and resets the resolver; otherwise it sets
`isInitializing := true` and suspends at the candidate query.  This is the
part of a triggered refresh that executes inside the triggering command's
atomic segment. -/
def refreshStart (keyRingType : String) (s : SelectablesState) : SelectablesState :=
  if keyRingType ≠ "mnemonic" then
    { isInitializing := false, isKeyStoreCoinTypeSet := true, selectables := [] }
  else
    { s with isInitializing := true }

/-- `KeyRingSelectablesStore.refresh` (keyring.ts lines 79–116), run to
completion.  `keyRingType` is the value of `keyRingStore.keyRingType` the
refresh observes; `queryResponse` is the outcome of the
`GetIsKeyStoreCoinTypeSetMsg` boundary call; `setCoinTypeResponse` is the
outcome of the nested `keyRingStore.setKeyStoreCoinType` command awaited in
the single-candidate case (that nested store command's own state effects are
modelled by `KeyRingStore.setKeyStoreCoinType`; here it appears as its
invocation event and outcome).  A rejection aborts the generator, so the
trailing `isInitializing = false` write is skipped on failure. -/
def refresh (keyRingType : String) (chainInfo : ChainInfo) (chainId : String)
    (s : SelectablesState)
    (queryResponse : Except AuthorityError (List Selectable))
    (setCoinTypeResponse : Except AuthorityError Unit) :
    Outcome SelectablesState Unit :=
  if keyRingType ≠ "mnemonic" then
    ⟨{ isInitializing := false, isKeyStoreCoinTypeSet := true, selectables := [] },
      .ok (), []⟩
  else
    let s1 := { s with isInitializing := true }
    match queryResponse with
    | .error e =>
      ⟨s1, .error e, [.sendMessage "get-is-keystore-coin-type-set"]⟩
    | .ok seletables =>
      match seletables with
      | [] =>
        ⟨{ s1 with isKeyStoreCoinTypeSet := true, isInitializing := false }, .ok (),
          [.sendMessage "get-is-keystore-coin-type-set"]⟩
      | [single] =>
        match setCoinTypeResponse with
        | .error e =>
          ⟨s1, .error e,
            [.sendMessage "get-is-keystore-coin-type-set",
             .setCoinTypeCall chainId single.path.coinType]⟩
        | .ok () =>
          ⟨{ s1 with isKeyStoreCoinTypeSet := true, isInitializing := false }, .ok (),
            [.sendMessage "get-is-keystore-coin-type-set",
             .setCoinTypeCall chainId single.path.coinType]⟩
      | _ =>
        ⟨{ s1 with
            selectables := seletables
            isKeyStoreCoinTypeSet := false
            isInitializing := false }, .ok (),
          [.sendMessage "get-is-keystore-coin-type-set"]⟩

/-- `needSelectCoinType` computed getter (keyring.ts lines 58–68). -/
def needSelectCoinType (chainInfo : ChainInfo) (s : SelectablesState) : Bool :=
  match chainInfo.alternativeBIP44s with
  | none => false
  | some alts =>
    if alts.length = 0 then false
    else !s.isInitializing && !s.isKeyStoreCoinTypeSet

end KeyRingSelectablesStore

namespace KeyRingStore

/-- Response of `CreateMnemonicKeyMsg` / `CreatePrivateKeyMsg` /
`CreateLedgerKeyMsg` / `LockKeyRingMsg` / `UnlockKeyRingMsg`: `{ status }`. -/
structure StatusResult where
  status : KeyRingStatus
deriving DecidableEq

/-- Response of `RestoreKeyRingMsg`. -/
structure RestoreResult where
  status : KeyRingStatus
  type : String
  multiKeyStoreInfo : List KeyStoreInfo
deriving DecidableEq

/-- Response of `DeleteKeyRingMsg`. -/
structure DeleteResult where
  status : KeyRingStatus
  multiKeyStoreInfo : List KeyStoreInfo
deriving DecidableEq

/-- `createMnemonicKey` (keyring.ts lines 146–162): send
`CreateMnemonicKeyMsg`, write `status` from the response, then send
`GetKeyRingTypeMsg` and write `keyRingType` from that response. -/
def createMnemonicKey (s : KeyRingState)
    (mnemonic password : String) (meta : List (String × String))
    (bip44HDPath : BIP44HDPath)
    (createResponse : Except AuthorityError StatusResult)
    (typeResponse : Except AuthorityError String) : Outcome KeyRingState Unit :=
  match createResponse with
  | .error e => ⟨s, .error e, [.sendMessage "create-mnemonic-key"]⟩
  | .ok result =>
    let s1 := { s with status := result.status }
    match typeResponse with
    | .error e =>
      ⟨s1, .error e,
        [.sendMessage "create-mnemonic-key", .writeStatus result.status,
         .sendMessage "get-keyring-type"]⟩
    | .ok t =>
      ⟨{ s1 with keyRingType := t }, .ok (),
        [.sendMessage "create-mnemonic-key", .writeStatus result.status,
         .sendMessage "get-keyring-type", .writeKeyRingType t]⟩

/-- `createPrivateKey` (keyring.ts lines 164–183): same shape as
`createMnemonicKey` with a `CreatePrivateKeyMsg` (the private key is
hex-encoded into the message payload only). -/
def createPrivateKey (s : KeyRingState)
    (privateKey : List Nat) (password : String) (meta : List (String × String))
    (createResponse : Except AuthorityError StatusResult)
    (typeResponse : Except AuthorityError String) : Outcome KeyRingState Unit :=
  match createResponse with
  | .error e => ⟨s, .error e, [.sendMessage "create-private-key"]⟩
  | .ok result =>
    let s1 := { s with status := result.status }
    match typeResponse with
    | .error e =>
      ⟨s1, .error e,
        [.sendMessage "create-private-key", .writeStatus result.status,
         .sendMessage "get-keyring-type"]⟩
    | .ok t =>
      ⟨{ s1 with keyRingType := t }, .ok (),
        [.sendMessage "create-private-key", .writeStatus result.status,
         .sendMessage "get-keyring-type", .writeKeyRingType t]⟩

/-- `createLedgerKey` (keyring.ts lines 185–200): same shape with a
`CreateLedgerKeyMsg`. -/
def createLedgerKey (s : KeyRingState)
    (password : String) (meta : List (String × String)) (bip44HDPath : BIP44HDPath)
    (createResponse : Except AuthorityError StatusResult)
    (typeResponse : Except AuthorityError String) : Outcome KeyRingState Unit :=
  match createResponse with
  | .error e => ⟨s, .error e, [.sendMessage "create-ledger-key"]⟩
  | .ok result =>
    let s1 := { s with status := result.status }
    match typeResponse with
    | .error e =>
      ⟨s1, .error e,
        [.sendMessage "create-ledger-key", .writeStatus result.status,
         .sendMessage "get-keyring-type"]⟩
    | .ok t =>
      ⟨{ s1 with keyRingType := t }, .ok (),
        [.sendMessage "create-ledger-key", .writeStatus result.status,
         .sendMessage "get-keyring-type", .writeKeyRingType t]⟩

/-- `addMnemonicKey` (keyring.ts lines 202–212): one boundary call writing
`multiKeyStoreInfo` from the response. -/
def addMnemonicKey (s : KeyRingState)
    (mnemonic : String) (meta : List (String × String)) (bip44HDPath : BIP44HDPath)
    (addResponse : Except AuthorityError (List KeyStoreInfo)) :
    Outcome KeyRingState Unit :=
  match addResponse with
  | .error e => ⟨s, .error e, [.sendMessage "add-mnemonic-key"]⟩
  | .ok info =>
    ⟨{ s with multiKeyStoreInfo := info }, .ok (),
      [.sendMessage "add-mnemonic-key", .writeMultiKeyStoreInfo info]⟩

/-- `addPrivateKey` (keyring.ts lines 214–223). -/
def addPrivateKey (s : KeyRingState)
    (privateKey : List Nat) (meta : List (String × String))
    (addResponse : Except AuthorityError (List KeyStoreInfo)) :
    Outcome KeyRingState Unit :=
  match addResponse with
  | .error e => ⟨s, .error e, [.sendMessage "add-private-key"]⟩
  | .ok info =>
    ⟨{ s with multiKeyStoreInfo := info }, .ok (),
      [.sendMessage "add-private-key", .writeMultiKeyStoreInfo info]⟩

/-- `addLedgerKey` (keyring.ts lines 225–231). -/
def addLedgerKey (s : KeyRingState)
    (meta : List (String × String)) (bip44HDPath : BIP44HDPath)
    (addResponse : Except AuthorityError (List KeyStoreInfo)) :
    Outcome KeyRingState Unit :=
  match addResponse with
  | .error e => ⟨s, .error e, [.sendMessage "add-ledger-key"]⟩
  | .ok info =>
    ⟨{ s with multiKeyStoreInfo := info }, .ok (),
      [.sendMessage "add-ledger-key", .writeMultiKeyStoreInfo info]⟩

/-- `changeKeyRing` (keyring.ts lines 233–247): write `multiKeyStoreInfo`
from `ChangeKeyRingMsg`, write `keyRingType` from `GetKeyRingTypeMsg`,
dispatch `keplr_keystorechange`, then start `refresh()` on every registered
resolver (each refresh observes the already-written new `keyRingType`; its
synchronous segment `refreshStart` executes inside this atomic segment). -/
def changeKeyRing (s : KeyRingState) (index : Nat)
    (changeResponse : Except AuthorityError (List KeyStoreInfo))
    (typeResponse : Except AuthorityError String) : Outcome KeyRingState Unit :=
  match changeResponse with
  | .error e => ⟨s, .error e, [.sendMessage "change-keyring"]⟩
  | .ok info =>
    let s1 := { s with multiKeyStoreInfo := info }
    match typeResponse with
    | .error e =>
      ⟨s1, .error e,
        [.sendMessage "change-keyring", .writeMultiKeyStoreInfo info,
         .sendMessage "get-keyring-type"]⟩
    | .ok t =>
      let s2 := { s1 with keyRingType := t }
      ⟨{ s2 with
          selectablesMap :=
            s2.selectablesMap.map
              (fun p => (p.1, KeyRingSelectablesStore.refreshStart t p.2)) },
        .ok (),
        [.sendMessage "change-keyring", .writeMultiKeyStoreInfo info,
         .sendMessage "get-keyring-type", .writeKeyRingType t,
         .dispatchEvent "keplr_keystorechange"]
        ++ s2.selectablesMap.map (fun p => .refreshTriggered p.1 t)⟩

/-- `lock` (keyring.ts lines 249–256). -/
def lock (s : KeyRingState)
    (lockResponse : Except AuthorityError StatusResult) : Outcome KeyRingState Unit :=
  match lockResponse with
  | .error e => ⟨s, .error e, [.sendMessage "lock-keyring"]⟩
  | .ok result =>
    ⟨{ s with status := result.status }, .ok (),
      [.sendMessage "lock-keyring", .writeStatus result.status]⟩

/-- The approval loop inside `unlock` (keyring.ts lines 266–275): for each
pending `EnableKeyRingMsg` interaction, in the order returned by
`interactionStore.getDatas`, await `interactionStore.approve` with an empty
payload `{}`; a rejection aborts the loop. -/
def approveEnableInteractions (pending : List Interaction)
    (approveResponse : String → Except AuthorityError Unit) :
    Except AuthorityError Unit × List Event :=
  match pending with
  | [] => (.ok (), [])
  | interaction :: rest =>
    match approveResponse interaction.id with
    | .error e => (.error e, [.approveInteraction "enable-keyring" interaction.id []])
    | .ok () =>
      let tail := approveEnableInteractions rest approveResponse
      (tail.1, .approveInteraction "enable-keyring" interaction.id [] :: tail.2)

/-- `unlock` (keyring.ts lines 258–278): write `status` from
`UnlockKeyRingMsg`, then approve every pending `EnableKeyRingMsg`
interaction with an empty payload, then dispatch `keplr_keystoreunlock`.
`pending` is the list returned by `interactionStore.getDatas`, in the
collaborator's order; `approveResponse` gives each approval call's outcome. -/
def unlock (s : KeyRingState) (password : String)
    (unlockResponse : Except AuthorityError StatusResult)
    (pending : List Interaction)
    (approveResponse : String → Except AuthorityError Unit) :
    Outcome KeyRingState Unit :=
  match unlockResponse with
  | .error e => ⟨s, .error e, [.sendMessage "unlock-keyring"]⟩
  | .ok result =>
    let s1 := { s with status := result.status }
    let loopOut := approveEnableInteractions pending approveResponse
    match loopOut.1 with
    | .error e =>
      ⟨s1, .error e,
        [.sendMessage "unlock-keyring", .writeStatus result.status] ++ loopOut.2⟩
    | .ok () =>
      ⟨s1, .ok (),
        [.sendMessage "unlock-keyring", .writeStatus result.status] ++ loopOut.2
          ++ [.dispatchEvent "keplr_keystoreunlock"]⟩

/-- `restore` (keyring.ts lines 280–289): seed `status`, `keyRingType`,
`multiKeyStoreInfo` from `RestoreKeyRingMsg`. -/
def restore (s : KeyRingState)
    (restoreResponse : Except AuthorityError RestoreResult) :
    Outcome KeyRingState Unit :=
  match restoreResponse with
  | .error e => ⟨s, .error e, [.sendMessage "restore-keyring"]⟩
  | .ok r =>
    ⟨{ s with
        status := r.status
        keyRingType := r.type
        multiKeyStoreInfo := r.multiKeyStoreInfo }, .ok (),
      [.sendMessage "restore-keyring", .writeStatus r.status,
       .writeKeyRingType r.type, .writeMultiKeyStoreInfo r.multiKeyStoreInfo]⟩

/-- `showKeyRing` (keyring.ts lines 291–295): returns the revealed key
material; writes nothing. -/
def showKeyRing (s : KeyRingState) (index : Nat) (password : String)
    (showResponse : Except AuthorityError String) : Outcome KeyRingState String :=
  match showResponse with
  | .error e => ⟨s, .error e, [.sendMessage "show-keyring"]⟩
  | .ok key => ⟨s, .ok key, [.sendMessage "show-keyring"]⟩

/-- `deleteKeyRing` (keyring.ts lines 297–310): write `status` and
`multiKeyStoreInfo` from `DeleteKeyRingMsg`, then write `keyRingType` from
`GetKeyRingTypeMsg`.  No event dispatch and no resolver refresh fan-out. -/
def deleteKeyRing (s : KeyRingState) (index : Nat) (password : String)
    (deleteResponse : Except AuthorityError DeleteResult)
    (typeResponse : Except AuthorityError String) : Outcome KeyRingState Unit :=
  match deleteResponse with
  | .error e => ⟨s, .error e, [.sendMessage "delete-keyring"]⟩
  | .ok r =>
    let s1 := { s with status := r.status, multiKeyStoreInfo := r.multiKeyStoreInfo }
    match typeResponse with
    | .error e =>
      ⟨s1, .error e,
        [.sendMessage "delete-keyring", .writeStatus r.status,
         .writeMultiKeyStoreInfo r.multiKeyStoreInfo, .sendMessage "get-keyring-type"]⟩
    | .ok t =>
      ⟨{ s1 with keyRingType := t }, .ok (),
        [.sendMessage "delete-keyring", .writeStatus r.status,
         .writeMultiKeyStoreInfo r.multiKeyStoreInfo, .sendMessage "get-keyring-type",
         .writeKeyRingType t]⟩

/-- `getKeyStoreSelectables` (keyring.ts lines 312–329): insert-if-absent of
a fresh resolver; the constructor runs `refresh()`, whose synchronous segment
is `refreshStart` at the current `keyRingType`. -/
def getKeyStoreSelectables (s : KeyRingState) (chainId : String) : KeyRingState :=
  if (s.selectablesMap.lookup chainId).isSome then s
  else
    { s with selectablesMap :=
        s.selectablesMap
          ++ [(chainId,
               KeyRingSelectablesStore.refreshStart s.keyRingType
                 KeyRingSelectablesStore.initial)] }

/-- `setKeyStoreCoinType` (keyring.ts lines 333–351): send
`SetKeyStoreCoinTypeMsg` (response held locally), send
`GetMultiKeyStoreInfoMsg`, then write `multiKeyStoreInfo` and `status`,
dispatch `keplr_keystorechange`, and start `refresh()` on every registered
resolver (observing the unchanged `keyRingType`). -/
def setKeyStoreCoinType (s : KeyRingState) (chainId : String) (coinType : Nat)
    (setResponse : Except AuthorityError KeyRingStatus)
    (infoResponse : Except AuthorityError (List KeyStoreInfo)) :
    Outcome KeyRingState Unit :=
  match setResponse with
  | .error e => ⟨s, .error e, [.sendMessage "set-keystore-coin-type"]⟩
  | .ok status =>
    match infoResponse with
    | .error e =>
      ⟨s, .error e,
        [.sendMessage "set-keystore-coin-type", .sendMessage "get-multi-keystore-info"]⟩
    | .ok info =>
      let s1 := { s with multiKeyStoreInfo := info, status := status }
      ⟨{ s1 with
          selectablesMap :=
            s1.selectablesMap.map
              (fun p => (p.1, KeyRingSelectablesStore.refreshStart s1.keyRingType p.2)) },
        .ok (),
        [.sendMessage "set-keystore-coin-type", .sendMessage "get-multi-keystore-info",
         .writeMultiKeyStoreInfo info, .writeStatus status,
         .dispatchEvent "keplr_keystorechange"]
        ++ s1.selectablesMap.map (fun p => .refreshTriggered p.1 s1.keyRingType)⟩

/-- Completion of an in-flight resolver refresh at the store level: the
resolver registered for `chainId` runs `KeyRingSelectablesStore.refresh`
(observing the store's current `keyRingType`) and its state is written back
into the registry. -/
def refreshSelectables (s : KeyRingState) (chainId : String) (chainInfo : ChainInfo)
    (queryResponse : Except AuthorityError (List Selectable))
    (setCoinTypeResponse : Except AuthorityError Unit) : Outcome KeyRingState Unit :=
  match s.selectablesMap.lookup chainId with
  | none => ⟨s, .ok (), []⟩
  | some st =>
    let out := KeyRingSelectablesStore.refresh s.keyRingType chainInfo chainId st
      queryResponse setCoinTypeResponse
    ⟨{ s with selectablesMap :=
        s.selectablesMap.map (fun p => if p.1 = chainId then (p.1, out.state) else p) },
      out.result, out.trace⟩

end KeyRingStore

/-! ## Trace predicates -/

/-- `e` is a write to one of the store's observable fields. -/
def Event.isWrite : Event → Bool
  | .writeStatus _ => true
  | .writeKeyRingType _ => true
  | .writeMultiKeyStoreInfo _ => true
  | _ => false

/-- `e` starts a resolver refresh. -/
def Event.startsRefresh : Event → Bool
  | .refreshTriggered _ _ => true
  | _ => false

/-- `e` approves a pending interaction. -/
def Event.isApprove : Event → Bool
  | .approveInteraction _ _ _ => true
  | _ => false

/-- `e` dispatches a window event. -/
def Event.isDispatch : Event → Bool
  | .dispatchEvent _ => true
  | _ => false

/-- `e` is a cross-boundary call. -/
def Event.isBoundaryCall : Event → Bool
  | .sendMessage _ => true
  | _ => false

/-- Every state write in the trace occurs strictly before every
resolver-refresh trigger: the trace splits into a trigger-free prefix and a
write-free suffix. -/
def writesBeforeTriggers (tr : List Event) : Prop :=
  ∃ pre post, tr = pre ++ post
    ∧ pre.all (fun e => ! e.startsRefresh) = true
    ∧ post.all (fun e => ! e.isWrite) = true

/-- Every resolver-refresh trigger in the trace observes the key-ring kind
`kind` at the moment it starts. -/
def triggersObserveKind (tr : List Event) (kind : String) : Bool :=
  tr.all (fun e =>
    match e with
    | .refreshTriggered _ k => k == kind
    | _ => true)

/-! ## Shared concrete inputs for counterexamples and witnesses -/

/-- A quiescent pre-state with no key ring and no registered resolver. -/
def exEmptyState : KeyRingState :=
  { status := .EMPTY, keyRingType := "none", multiKeyStoreInfo := [], selectablesMap := [] }

/-- A chain declaring one alternative derivation path (coin types 118, 60). -/
def exChainInfo : ChainInfo :=
  { bip44 := ⟨118⟩, alternativeBIP44s := some [⟨60⟩] }

/-- A freshly constructed resolver before any refresh write-back. -/
def exResolver : SelectablesState :=
  { isInitializing := false, isKeyStoreCoinTypeSet := false, selectables := [] }

/-- Candidate on the primary path. -/
def exCandidateA : Selectable := { path := ⟨118⟩, bech32Address := "cosmos1primary" }

/-- Candidate on the alternative path. -/
def exCandidateB : Selectable := { path := ⟨60⟩, bech32Address := "cosmos1alt" }

/-- State after the constructor's `restore` seeds an unlocked mnemonic key
ring with one selected store. -/
def exMnemonicRestored : KeyRingState :=
  (KeyRingStore.restore exEmptyState
    (.ok { status := .UNLOCKED, type := "mnemonic",
           multiKeyStoreInfo := [{ type := "mnemonic", meta := [], selected := true }] })).state

/-- ...after `getKeyStoreSelectables` lazily creates the resolver for chain
`"cosmoshub-4"` (its constructor refresh starts and suspends). -/
def exWithResolver : KeyRingState :=
  KeyRingStore.getKeyStoreSelectables exMnemonicRestored "cosmoshub-4"

/-- ...after that resolver's refresh completes with two candidates: the
resolver is now `resolved = false` with both candidates exposed. -/
def exAmbiguous : KeyRingState :=
  (KeyRingStore.refreshSelectables exWithResolver "cosmoshub-4" exChainInfo
    (.ok [exCandidateA, exCandidateB]) (.ok ())).state

/-- ...after a successful `createLedgerKey` whose follow-up kind fetch
returns `"ledger"` — the command refreshes no resolver. -/
def exAfterLedgerCreate : KeyRingState :=
  (KeyRingStore.createLedgerKey exAmbiguous "pw" [] ⟨0, 0, 0⟩
    (.ok ⟨.UNLOCKED⟩) (.ok "ledger")).state

/-! ## Helper lemmas -/

theorem approveEnableInteractions_allOk (pending : List Interaction) :
    KeyRingStore.approveEnableInteractions pending (fun _ => .ok ()) =
      (.ok (), pending.map (fun it => Event.approveInteraction "enable-keyring" it.id [])) := by
  induction pending with
  | nil => rfl
  | cons hd tl ih => simp [KeyRingStore.approveEnableInteractions, ih]

theorem approveEnableInteractions_trace_only_approves (pending : List Interaction)
    (f : String → Except AuthorityError Unit) :
    ((KeyRingStore.approveEnableInteractions pending f).2.all
      (fun ev => ev.isApprove && ! ev.isDispatch)) = true := by
  induction pending with
  | nil => rfl
  | cons hd tl ih =>
    cases hf : f hd.id with
    | error e =>
      simp [KeyRingStore.approveEnableInteractions, hf, Event.isApprove, Event.isDispatch]
    | ok u =>
      simp only [KeyRingStore.approveEnableInteractions, hf, List.all_cons]
      simpa [Event.isApprove, Event.isDispatch] using ih

/-! ## Claim theorems -/

/-- C5: on every successful `unlock(password)`, the store approves every
pending "enable key ring" interaction with an empty response payload, in the
order returned by the interaction collaborator, and all approvals complete
before the `keplr_keystoreunlock` signal is dispatched — shown by the full
event trace: the approval events appear verbatim, in `pending`'s order,
strictly between the status write and the dispatch. -/
theorem unlock_approves_all_pending_in_order_before_signal
    (s : KeyRingState) (password : String) (st : KeyRingStatus)
    (pending : List Interaction) :
    KeyRingStore.unlock s password (.ok ⟨st⟩) pending (fun _ => .ok ()) =
      ⟨{ s with status := st }, .ok (),
        [.sendMessage "unlock-keyring", .writeStatus st]
          ++ pending.map (fun it => Event.approveInteraction "enable-keyring" it.id [])
          ++ [.dispatchEvent "keplr_keystoreunlock"]⟩ := by
  simp [KeyRingStore.unlock, approveEnableInteractions_allOk]

/-- C8: an `unlock` whose boundary call rejects (wrong password) leaves the
whole store state — in particular `status` — unchanged, propagates the
rejection, and its trace contains no interaction approval and no event
dispatch (so the unlock signal is not broadcast). -/
theorem unlock_rejection_leaves_state_untouched
    (s : KeyRingState) (password : String) (e : AuthorityError)
    (pending : List Interaction)
    (approveResponse : String → Except AuthorityError Unit) :
    KeyRingStore.unlock s password (.error e) pending approveResponse =
        ⟨s, .error e, [.sendMessage "unlock-keyring"]⟩
    ∧ ((KeyRingStore.unlock s password (.error e) pending approveResponse).trace.all
        (fun ev => ! ev.isApprove && ! ev.isDispatch)) = true :=
  ⟨rfl, rfl⟩

/-- C10: in `unlock`, `status` is written from the authority's response
before any pending interaction is approved (the trace is the status write
followed by the approval-loop events); hence when an approval call rejects,
the command propagates that error with `status` already holding the new
value, and the unlock signal is never dispatched. -/
theorem unlock_writes_status_before_approvals
    (s : KeyRingState) (password : String) (st : KeyRingStatus)
    (pending : List Interaction)
    (approveResponse : String → Except AuthorityError Unit)
    (e : AuthorityError)
    (h : (KeyRingStore.approveEnableInteractions pending approveResponse).1 = .error e) :
    (KeyRingStore.unlock s password (.ok ⟨st⟩) pending approveResponse).result = .error e
    ∧ (KeyRingStore.unlock s password (.ok ⟨st⟩) pending approveResponse).state.status = st
    ∧ (KeyRingStore.unlock s password (.ok ⟨st⟩) pending approveResponse).trace =
        [.sendMessage "unlock-keyring", .writeStatus st]
          ++ (KeyRingStore.approveEnableInteractions pending approveResponse).2
    ∧ ((KeyRingStore.unlock s password (.ok ⟨st⟩) pending approveResponse).trace.all
        (fun ev => ! ev.isDispatch)) = true := by
  have htr := approveEnableInteractions_trace_only_approves pending approveResponse
  refine ⟨?_, ?_, ?_, ?_⟩ <;>
    simp_all [KeyRingStore.unlock, List.all_append, List.all_cons, Event.isDispatch,
      Bool.and_comm]

/-- Witness for C10 at a concrete input: two pending interactions, the first
approval call rejects. -/
theorem unlock_writes_status_before_approvals_witness :
    (KeyRingStore.unlock exEmptyState "pw" (.ok ⟨.UNLOCKED⟩) [⟨"i1"⟩, ⟨"i2"⟩]
        (fun _ => .error "approval rejected")).result = .error "approval rejected"
    ∧ (KeyRingStore.unlock exEmptyState "pw" (.ok ⟨.UNLOCKED⟩) [⟨"i1"⟩, ⟨"i2"⟩]
        (fun _ => .error "approval rejected")).state.status = .UNLOCKED
    ∧ (KeyRingStore.unlock exEmptyState "pw" (.ok ⟨.UNLOCKED⟩) [⟨"i1"⟩, ⟨"i2"⟩]
        (fun _ => .error "approval rejected")).trace =
        [.sendMessage "unlock-keyring", .writeStatus .UNLOCKED]
          ++ (KeyRingStore.approveEnableInteractions [⟨"i1"⟩, ⟨"i2"⟩]
              (fun _ => .error "approval rejected")).2
    ∧ ((KeyRingStore.unlock exEmptyState "pw" (.ok ⟨.UNLOCKED⟩) [⟨"i1"⟩, ⟨"i2"⟩]
        (fun _ => .error "approval rejected")).trace.all
        (fun ev => ! ev.isDispatch)) = true :=
  unlock_writes_status_before_approvals exEmptyState "pw" .UNLOCKED [⟨"i1"⟩, ⟨"i2"⟩]
    (fun _ => .error "approval rejected") "approval rejected" rfl

/-- C7: a `refresh` that observes a non-mnemonic active key-ring kind issues
no boundary call (empty trace) and terminates with `resolved = true`,
`candidates = []`, `initializing = false`, whatever candidate data the
authority would have returned. -/
theorem refresh_non_mnemonic_resets_without_boundary_call
    (keyRingType : String) (chainInfo : ChainInfo) (chainId : String)
    (s : SelectablesState) (queryResponse : Except AuthorityError (List Selectable))
    (setCoinTypeResponse : Except AuthorityError Unit)
    (h : keyRingType ≠ "mnemonic") :
    KeyRingSelectablesStore.refresh keyRingType chainInfo chainId s
        queryResponse setCoinTypeResponse =
      ⟨{ isInitializing := false, isKeyStoreCoinTypeSet := true, selectables := [] },
        .ok (), []⟩ := by
  simp [KeyRingSelectablesStore.refresh, h]

/-- Witness for C7: active kind `"ledger"`, with the authority poised to
return two candidates — the refresh still resets and issues no call. -/
theorem refresh_non_mnemonic_resets_witness :
    KeyRingSelectablesStore.refresh "ledger" exChainInfo "cosmoshub-4" exResolver
        (.ok [exCandidateA, exCandidateB]) (.ok ()) =
      ⟨{ isInitializing := false, isKeyStoreCoinTypeSet := true, selectables := [] },
        .ok (), []⟩ :=
  refresh_non_mnemonic_resets_without_boundary_call "ledger" exChainInfo "cosmoshub-4"
    exResolver (.ok [exCandidateA, exCandidateB]) (.ok ()) (by decide)

/-- C1 counterexample: `createMnemonicKey` issues two boundary calls; when
the first (`CreateMnemonicKeyMsg`) resolves and the second
(`GetKeyRingTypeMsg`) rejects, the command propagates the error with
`status` already overwritten from the first response — a partial write, so
local state does not equal its pre-command value. -/
theorem rejected_command_partial_write_counterexample :
    (KeyRingStore.createMnemonicKey exEmptyState "m" "pw" [] ⟨0, 0, 0⟩
        (.ok ⟨.UNLOCKED⟩) (.error "authority unavailable")).result =
      .error "authority unavailable"
    ∧ (KeyRingStore.createMnemonicKey exEmptyState "m" "pw" [] ⟨0, 0, 0⟩
        (.ok ⟨.UNLOCKED⟩) (.error "authority unavailable")).state.status = .UNLOCKED
    ∧ exEmptyState.status = .EMPTY
    ∧ (KeyRingStore.createMnemonicKey exEmptyState "m" "pw" [] ⟨0, 0, 0⟩
        (.ok ⟨.UNLOCKED⟩) (.error "authority unavailable")).state.status
        ≠ exEmptyState.status :=
  ⟨rfl, rfl, rfl, by decide⟩

/-- C1 amended: when the FIRST boundary call of any Session Store command
rejects, the whole local observable state (`status`, `keyRingType`,
`multiKeyStoreInfo`, resolver registry) is returned unchanged and the error
is propagated; for `setKeyStoreCoinType` this also holds when its second
call rejects (it writes only after both responses arrive), and `showKeyRing`
never writes.  (Writes already performed from earlier successful responses
of the same command persist — see the counterexample.) -/
theorem first_boundary_rejection_leaves_state_unchanged (e : AuthorityError) :
    (∀ s m pw md p r2, KeyRingStore.createMnemonicKey s m pw md p (.error e) r2 =
        ⟨s, .error e, [.sendMessage "create-mnemonic-key"]⟩)
    ∧ (∀ s k pw md r2, KeyRingStore.createPrivateKey s k pw md (.error e) r2 =
        ⟨s, .error e, [.sendMessage "create-private-key"]⟩)
    ∧ (∀ s pw md p r2, KeyRingStore.createLedgerKey s pw md p (.error e) r2 =
        ⟨s, .error e, [.sendMessage "create-ledger-key"]⟩)
    ∧ (∀ s m md p, KeyRingStore.addMnemonicKey s m md p (.error e) =
        ⟨s, .error e, [.sendMessage "add-mnemonic-key"]⟩)
    ∧ (∀ s k md, KeyRingStore.addPrivateKey s k md (.error e) =
        ⟨s, .error e, [.sendMessage "add-private-key"]⟩)
    ∧ (∀ s md p, KeyRingStore.addLedgerKey s md p (.error e) =
        ⟨s, .error e, [.sendMessage "add-ledger-key"]⟩)
    ∧ (∀ s i r2, KeyRingStore.changeKeyRing s i (.error e) r2 =
        ⟨s, .error e, [.sendMessage "change-keyring"]⟩)
    ∧ (∀ s, KeyRingStore.lock s (.error e) =
        ⟨s, .error e, [.sendMessage "lock-keyring"]⟩)
    ∧ (∀ s pw pending f, KeyRingStore.unlock s pw (.error e) pending f =
        ⟨s, .error e, [.sendMessage "unlock-keyring"]⟩)
    ∧ (∀ s i pw, KeyRingStore.showKeyRing s i pw (.error e) =
        ⟨s, .error e, [.sendMessage "show-keyring"]⟩)
    ∧ (∀ s i pw r2, KeyRingStore.deleteKeyRing s i pw (.error e) r2 =
        ⟨s, .error e, [.sendMessage "delete-keyring"]⟩)
    ∧ (∀ s cid ct r2, KeyRingStore.setKeyStoreCoinType s cid ct (.error e) r2 =
        ⟨s, .error e, [.sendMessage "set-keystore-coin-type"]⟩)
    ∧ (∀ s cid ct st2, KeyRingStore.setKeyStoreCoinType s cid ct (.ok st2) (.error e) =
        ⟨s, .error e,
          [.sendMessage "set-keystore-coin-type", .sendMessage "get-multi-keystore-info"]⟩) := by
  refine ⟨?_, ?_, ?_, ?_, ?_, ?_, ?_, ?_, ?_, ?_, ?_, ?_, ?_⟩ <;> intros <;> rfl

/-- C4 counterexample: a successful `createMnemonicKey` writes `keyRingType`
from its second boundary call, so more local state than the status mirror
changes: starting from kind `"none"`, the kind becomes `"mnemonic"`. -/
theorem successful_createKey_changes_kind_counterexample :
    (KeyRingStore.createMnemonicKey exEmptyState "m" "pw" [] ⟨0, 0, 0⟩
        (.ok ⟨.UNLOCKED⟩) (.ok "mnemonic")).result = .ok ()
    ∧ (KeyRingStore.createMnemonicKey exEmptyState "m" "pw" [] ⟨0, 0, 0⟩
        (.ok ⟨.UNLOCKED⟩) (.ok "mnemonic")).state.keyRingType = "mnemonic"
    ∧ exEmptyState.keyRingType = "none"
    ∧ (KeyRingStore.createMnemonicKey exEmptyState "m" "pw" [] ⟨0, 0, 0⟩
        (.ok ⟨.UNLOCKED⟩) (.ok "mnemonic")).state.keyRingType
        ≠ exEmptyState.keyRingType :=
  ⟨rfl, rfl, rfl, by decide⟩

/-- C4 amended: every successful create-key variant writes exactly `status`
(from the create response) and `keyRingType` (from the follow-up
`GetKeyRingTypeMsg` response) and nothing else: the full outcome equality
shows `multiKeyStoreInfo` and the resolver registry are carried over from
the pre-state unchanged. -/
theorem successful_createKey_writes_only_status_and_kind
    (s : KeyRingState) (st : KeyRingStatus) (t : String) :
    (∀ m pw md p, KeyRingStore.createMnemonicKey s m pw md p (.ok ⟨st⟩) (.ok t) =
        ⟨{ s with status := st, keyRingType := t }, .ok (),
          [.sendMessage "create-mnemonic-key", .writeStatus st,
           .sendMessage "get-keyring-type", .writeKeyRingType t]⟩)
    ∧ (∀ k pw md, KeyRingStore.createPrivateKey s k pw md (.ok ⟨st⟩) (.ok t) =
        ⟨{ s with status := st, keyRingType := t }, .ok (),
          [.sendMessage "create-private-key", .writeStatus st,
           .sendMessage "get-keyring-type", .writeKeyRingType t]⟩)
    ∧ (∀ pw md p, KeyRingStore.createLedgerKey s pw md p (.ok ⟨st⟩) (.ok t) =
        ⟨{ s with status := st, keyRingType := t }, .ok (),
          [.sendMessage "create-ledger-key", .writeStatus st,
           .sendMessage "get-keyring-type", .writeKeyRingType t]⟩) := by
  refine ⟨?_, ?_, ?_⟩ <;> intros <;> rfl

/-- C2 counterexample: a resolver refresh whose candidate query rejects
aborts the generator before the trailing `isInitializing = false` write, so
`initializing` is left `true` — not cleared on failure as the claim states. -/
theorem refresh_failure_keeps_initializing_counterexample :
    (KeyRingSelectablesStore.refresh "mnemonic" exChainInfo "cosmoshub-4" exResolver
        (.error "query rejected") (.ok ())).result = .error "query rejected"
    ∧ exResolver.isInitializing = false
    ∧ (KeyRingSelectablesStore.refresh "mnemonic" exChainInfo "cosmoshub-4" exResolver
        (.error "query rejected") (.ok ())).state.isInitializing = true :=
  ⟨rfl, rfl, rfl⟩

/-- C2 amended: on either failing boundary interaction of a mnemonic-kind
refresh (the candidate query, or the nested setCoinType command in the
single-candidate case), `resolved` and `candidates` keep their prior values
and the error propagates to the refresh caller, but `isInitializing` is left
`true` rather than cleared: the post-state is exactly the pre-state with
`isInitializing := true`. -/
theorem refresh_failure_preserves_resolution_keeps_initializing
    (chainInfo : ChainInfo) (chainId : String) (s : SelectablesState)
    (e : AuthorityError) :
    (∀ sct, KeyRingSelectablesStore.refresh "mnemonic" chainInfo chainId s
        (.error e) sct =
      ⟨{ s with isInitializing := true }, .error e,
        [.sendMessage "get-is-keystore-coin-type-set"]⟩)
    ∧ (∀ single, KeyRingSelectablesStore.refresh "mnemonic" chainInfo chainId s
        (.ok [single]) (.error e) =
      ⟨{ s with isInitializing := true }, .error e,
        [.sendMessage "get-is-keystore-coin-type-set",
         .setCoinTypeCall chainId single.path.coinType]⟩) := by
  refine ⟨?_, ?_⟩ <;> intros <;> rfl

/-- C6 counterexample: with the active kind mnemonic and a successful
candidate query returning exactly one candidate, a rejection of the nested
`setKeyStoreCoinType` command leaves the refresh with `resolved` unmarked
and `initializing` still `true`, contradicting the claim's "marks
resolved = true ... in all three cases initializing is false afterwards". -/
theorem refresh_single_candidate_commit_failure_counterexample :
    (KeyRingSelectablesStore.refresh "mnemonic" exChainInfo "cosmoshub-4" exResolver
        (.ok [exCandidateA]) (.error "set-coin-type rejected")).result =
      .error "set-coin-type rejected"
    ∧ (KeyRingSelectablesStore.refresh "mnemonic" exChainInfo "cosmoshub-4" exResolver
        (.ok [exCandidateA]) (.error "set-coin-type rejected")).state.isKeyStoreCoinTypeSet
        = false
    ∧ (KeyRingSelectablesStore.refresh "mnemonic" exChainInfo "cosmoshub-4" exResolver
        (.ok [exCandidateA]) (.error "set-coin-type rejected")).state.isInitializing = true :=
  ⟨rfl, rfl, rfl⟩

/-- C6 amended: for a mnemonic-kind refresh whose candidate query succeeds:
an empty candidate list marks `resolved = true`; exactly one candidate calls
`setKeyStoreCoinType(chainId, candidate.path.coinType)` exactly once (the
single `setCoinTypeCall` trace event) and — provided that nested command
also succeeds — marks `resolved = true`; two or more candidates are stored
verbatim in authority order with `resolved = false` and no setCoinType
call; `initializing` is false afterwards in each of these cases. -/
theorem refresh_mnemonic_candidate_cases
    (chainInfo : ChainInfo) (chainId : String) (s : SelectablesState) :
    (∀ sct, KeyRingSelectablesStore.refresh "mnemonic" chainInfo chainId s
        (.ok []) sct =
      ⟨{ s with isKeyStoreCoinTypeSet := true, isInitializing := false }, .ok (),
        [.sendMessage "get-is-keystore-coin-type-set"]⟩)
    ∧ (∀ single, KeyRingSelectablesStore.refresh "mnemonic" chainInfo chainId s
        (.ok [single]) (.ok ()) =
      ⟨{ s with isKeyStoreCoinTypeSet := true, isInitializing := false }, .ok (),
        [.sendMessage "get-is-keystore-coin-type-set",
         .setCoinTypeCall chainId single.path.coinType]⟩)
    ∧ (∀ c1 c2 rest sct, KeyRingSelectablesStore.refresh "mnemonic" chainInfo chainId s
        (.ok (c1 :: c2 :: rest)) sct =
      ⟨{ s with
          isInitializing := false
          isKeyStoreCoinTypeSet := false
          selectables := c1 :: c2 :: rest }, .ok (),
        [.sendMessage "get-is-keystore-coin-type-set"]⟩) := by
  refine ⟨?_, ?_, ?_⟩ <;> intros <;> rfl

/-- C3 counterexample: a reachable run — restore a mnemonic key ring, let a
chain's resolver surface two coin-type candidates (`resolved = false`), then
run a successful `createLedgerKey` — ends with `keyRingType = "ledger"`
(non-mnemonic) while the registered resolver still holds
`resolved = false` and two candidates, because the create-key variants
refresh no resolver. -/
theorem non_mnemonic_resolver_invariant_counterexample :
    exAfterLedgerCreate.keyRingType = "ledger"
    ∧ exAfterLedgerCreate.selectablesMap.lookup "cosmoshub-4" =
        some { isInitializing := false, isKeyStoreCoinTypeSet := false,
               selectables := [exCandidateA, exCandidateB] }
    ∧ exAfterLedgerCreate.selectablesMap.all
        (fun p => p.2.isKeyStoreCoinTypeSet && p.2.selectables.isEmpty) = false :=
  ⟨rfl, rfl, rfl⟩

/-- `refreshStart` under a non-mnemonic kind resets the resolver. -/
theorem refreshStart_reset_of_ne_mnemonic (t : String) (h : t ≠ "mnemonic")
    (s : SelectablesState) :
    KeyRingSelectablesStore.refreshStart t s =
      { isInitializing := false, isKeyStoreCoinTypeSet := true, selectables := [] } := by
  simp [KeyRingSelectablesStore.refreshStart, h]

/-- A registry mapped through `refreshStart` under a non-mnemonic kind holds
only resolved, candidate-free resolvers. -/
theorem resetMap_all_resolved (l : List (String × SelectablesState)) (t : String)
    (h : t ≠ "mnemonic") :
    ((l.map (fun p => (p.1, KeyRingSelectablesStore.refreshStart t p.2))).all
      (fun p => p.2.isKeyStoreCoinTypeSet && p.2.selectables.isEmpty)) = true := by
  induction l with
  | nil => rfl
  | cons hd tl ih => simp [refreshStart_reset_of_ne_mnemonic t h, List.all_cons, ih]

/-- C3 amended: the `resolved = true, candidates = []` consequence of a
non-mnemonic kind is restored by the operations that broadcast resolver
refreshes: after a successful `changeKeyRing` returning a non-mnemonic kind,
and after a successful `setKeyStoreCoinType` under a non-mnemonic kind,
every registered resolver is resolved with no candidates.  (It does not hold
after the create-key and delete-key variants, which change `keyRingType`
without refreshing resolvers — see the counterexample.) -/
theorem refresh_broadcasting_ops_restore_non_mnemonic_invariant :
    (∀ s i info t, t ≠ "mnemonic" →
      ((KeyRingStore.changeKeyRing s i (.ok info) (.ok t)).state.selectablesMap.all
        (fun p => p.2.isKeyStoreCoinTypeSet && p.2.selectables.isEmpty)) = true)
    ∧ (∀ s cid ct st2 info, s.keyRingType ≠ "mnemonic" →
      ((KeyRingStore.setKeyStoreCoinType s cid ct (.ok st2) (.ok info)).state.selectablesMap.all
        (fun p => p.2.isKeyStoreCoinTypeSet && p.2.selectables.isEmpty)) = true) := by
  constructor
  · intro s i info t ht
    simpa [KeyRingStore.changeKeyRing] using resetMap_all_resolved s.selectablesMap t ht
  · intro s cid ct st2 info hs
    simpa [KeyRingStore.setKeyStoreCoinType] using
      resetMap_all_resolved s.selectablesMap s.keyRingType hs

/-- Witness for the C3 amended theorem: switching away from the ambiguous
mnemonic state to a ledger key store resets the pending resolver. -/
theorem refresh_broadcasting_ops_restore_invariant_witness :
    ((KeyRingStore.changeKeyRing exAmbiguous 0 (.ok []) (.ok "ledger")).state.selectablesMap.all
      (fun p => p.2.isKeyStoreCoinTypeSet && p.2.selectables.isEmpty)) = true :=
  refresh_broadcasting_ops_restore_non_mnemonic_invariant.1 exAmbiguous 0 [] "ledger"
    (by decide)

/-- `triggersObserveKind` distributes over trace concatenation. -/
theorem triggersObserveKind_append (a b : List Event) (k : String) :
    triggersObserveKind (a ++ b) k =
      (triggersObserveKind a k && triggersObserveKind b k) := by
  simp [triggersObserveKind, List.all_append]

/-- A refresh fan-out block observes the kind it was broadcast with. -/
theorem triggerFanOut_observes_kind (l : List (String × SelectablesState)) (t : String) :
    triggersObserveKind (l.map (fun p => Event.refreshTriggered p.1 t)) t = true := by
  induction l with
  | nil => rfl
  | cons hd tl ih =>
    simp only [triggersObserveKind, List.map_cons, List.all_cons] at ih ⊢
    simp [ih]

/-- A refresh fan-out block contains no state write. -/
theorem triggerFanOut_no_write (l : List (String × SelectablesState)) (t : String) :
    ((l.map (fun p => Event.refreshTriggered p.1 t)).all (fun e => ! e.isWrite)) = true := by
  induction l with
  | nil => rfl
  | cons hd tl ih =>
    simp only [List.map_cons, List.all_cons, Bool.and_eq_true] at ih ⊢
    exact ⟨rfl, ih⟩

/-- C9: in every execution of `changeKeyRing`, `deleteKeyRing`, and
`setKeyStoreCoinType` — whatever each boundary call's outcome — the trace
splits into a prefix with no refresh trigger (holding all the
status/kind/inventory write-backs) followed by a suffix with no write, and
every refresh trigger observes the final (already-updated) `keyRingType`;
for `deleteKeyRing` the trigger parts hold vacuously, as it broadcasts no
refresh. -/
theorem write_back_completes_before_refresh_triggers :
    (∀ s i r1 r2,
      writesBeforeTriggers (KeyRingStore.changeKeyRing s i r1 r2).trace
      ∧ triggersObserveKind (KeyRingStore.changeKeyRing s i r1 r2).trace
          (KeyRingStore.changeKeyRing s i r1 r2).state.keyRingType = true)
    ∧ (∀ s i pw r1 r2,
      writesBeforeTriggers (KeyRingStore.deleteKeyRing s i pw r1 r2).trace
      ∧ triggersObserveKind (KeyRingStore.deleteKeyRing s i pw r1 r2).trace
          (KeyRingStore.deleteKeyRing s i pw r1 r2).state.keyRingType = true)
    ∧ (∀ s cid ct r1 r2,
      writesBeforeTriggers (KeyRingStore.setKeyStoreCoinType s cid ct r1 r2).trace
      ∧ triggersObserveKind (KeyRingStore.setKeyStoreCoinType s cid ct r1 r2).trace
          (KeyRingStore.setKeyStoreCoinType s cid ct r1 r2).state.keyRingType = true) := by
  refine ⟨?_, ?_, ?_⟩
  · intro s i r1 r2
    cases r1 with
    | error e => exact ⟨⟨[.sendMessage "change-keyring"], [], rfl, rfl, rfl⟩, rfl⟩
    | ok info =>
      cases r2 with
      | error e =>
        exact ⟨⟨[.sendMessage "change-keyring", .writeMultiKeyStoreInfo info,
          .sendMessage "get-keyring-type"], [], rfl, rfl, rfl⟩, rfl⟩
      | ok t =>
        refine ⟨?_, ?_⟩
        · exact ⟨[Event.sendMessage "change-keyring", Event.writeMultiKeyStoreInfo info,
            Event.sendMessage "get-keyring-type", Event.writeKeyRingType t,
            Event.dispatchEvent "keplr_keystorechange"],
            s.selectablesMap.map
              (fun (p : String × SelectablesState) => Event.refreshTriggered p.1 t),
            rfl, rfl, triggerFanOut_no_write s.selectablesMap t⟩
        show triggersObserveKind
          ([Event.sendMessage "change-keyring", .writeMultiKeyStoreInfo info,
            .sendMessage "get-keyring-type", .writeKeyRingType t,
            .dispatchEvent "keplr_keystorechange"]
            ++ s.selectablesMap.map (fun p => Event.refreshTriggered p.1 t)) t = true
        rw [triggersObserveKind_append, triggerFanOut_observes_kind]
        rfl
  · intro s i pw r1 r2
    cases r1 with
    | error e => exact ⟨⟨[.sendMessage "delete-keyring"], [], rfl, rfl, rfl⟩, rfl⟩
    | ok r =>
      cases r2 with
      | error e =>
        exact ⟨⟨[.sendMessage "delete-keyring", .writeStatus r.status,
          .writeMultiKeyStoreInfo r.multiKeyStoreInfo, .sendMessage "get-keyring-type"],
          [], rfl, rfl, rfl⟩, rfl⟩
      | ok t =>
        exact ⟨⟨[.sendMessage "delete-keyring", .writeStatus r.status,
          .writeMultiKeyStoreInfo r.multiKeyStoreInfo, .sendMessage "get-keyring-type",
          .writeKeyRingType t], [], rfl, rfl, rfl⟩, rfl⟩
  · intro s cid ct r1 r2
    cases r1 with
    | error e => exact ⟨⟨[.sendMessage "set-keystore-coin-type"], [], rfl, rfl, rfl⟩, rfl⟩
    | ok st2 =>
      cases r2 with
      | error e =>
        exact ⟨⟨[.sendMessage "set-keystore-coin-type",
          .sendMessage "get-multi-keystore-info"], [], rfl, rfl, rfl⟩, rfl⟩
      | ok info =>
        refine ⟨?_, ?_⟩
        · exact ⟨[Event.sendMessage "set-keystore-coin-type",
            Event.sendMessage "get-multi-keystore-info", Event.writeMultiKeyStoreInfo info,
            Event.writeStatus st2, Event.dispatchEvent "keplr_keystorechange"],
            s.selectablesMap.map
              (fun (p : String × SelectablesState) =>
                Event.refreshTriggered p.1 s.keyRingType),
            rfl, rfl, triggerFanOut_no_write s.selectablesMap s.keyRingType⟩
        show triggersObserveKind
          ([Event.sendMessage "set-keystore-coin-type",
            .sendMessage "get-multi-keystore-info", .writeMultiKeyStoreInfo info,
            .writeStatus st2, .dispatchEvent "keplr_keystorechange"]
            ++ s.selectablesMap.map (fun p => Event.refreshTriggered p.1 s.keyRingType))
          s.keyRingType = true
        rw [triggersObserveKind_append, triggerFanOut_observes_kind]
        rfl
